import Mathlib

/-!
Verification of the AIInsightHub media-analysis application (src/app.py).

The program is a single script: a credential gate, then three tabs
(video, image, data).  We embed it as functions from the remote-service
behaviour (an oracle `RemoteEnv`) and the user's inputs to a trace of
observable effects.  The unbounded video polling loop is embedded with
explicit fuel: a `none` result models non-termination within the given
fuel.
-/

namespace AIInsightHub

/-- A remote asset handle as returned by the generative-AI file store:
`processed_video.name` and `processed_video.state.name` in app.py.
The state is the string compared by the code (`"PROCESSING"` etc.). -/
structure RemoteAsset where
  name : String
  state : String
deriving DecidableEq, Repr

/-- Observable effects of one run of the script, in program order. -/
inductive Effect where
  | tempWrite (path : String) (sfx : String)
  | stVideo (path : String)
  | stImageShow
  | stDataframe
  | sidebarSuccess (msg : String)
  | sidebarError (msg : String)
  | sidebarWarning (msg : String)
  | stStop
  | initAgent
  | stWarning (msg : String)
  | stError (msg : String)
  | uploadFile (path : String)
  | sleep (secs : Nat)
  | getFile (name : String)
  | agentRun (p : String) (videos : List RemoteAsset) (images : List RemoteAsset)
  | stMarkdown (content : String)
  | unlink (path : String)
deriving DecidableEq, Repr

/-- The remote service and agent, as an oracle: results of
`upload_file`, of the i-th `get_file` call, and of
`multimodal_Agent.run(prompt, videos=…, images=…)`.  An `error e`
models the call raising an exception with message `e`. -/
structure RemoteEnv where
  uploadResult : String → Except String RemoteAsset
  getFileResult : Nat → Except String RemoteAsset
  runResult : String → List RemoteAsset → List RemoteAsset → Except String String

/-- app.py line 75: `st.file_uploader(..., type=['mp4', 'mov', 'avi'])`. -/
def videoUploaderAccepts (fileName : String) : Bool :=
  [".mp4", ".mov", ".avi"].any (fun ext => ext.data.isSuffixOf fileName.data)

/-- app.py line 128: `st.file_uploader(..., type=['png', 'jpg', 'jpeg'])`. -/
def imageUploaderAccepts (fileName : String) : Bool :=
  [".png", ".jpg", ".jpeg"].any (fun ext => ext.data.isSuffixOf fileName.data)

/-- The unique transient path chosen by `NamedTemporaryFile` for the video. -/
def tempVideoPath : String := "/tmp/staged_video"

/-- The unique transient path chosen by `NamedTemporaryFile` for the image. -/
def tempImagePath : String := "/tmp/staged_image"

/-- app.py lines 100-102: `while processed_video.state.name == "PROCESSING":
time.sleep(1); processed_video = get_file(processed_video.name)`.
Fuel-indexed; `none` means the loop has not exited within `fuel`
iterations.  Returns the effects of the loop and either the asset it
hands onward or the exception escaping from `get_file`. -/
def pollLoop (env : RemoteEnv) :
    Nat → Nat → RemoteAsset → Option (List Effect × Except String RemoteAsset)
  | 0, _, a => if a.state = "PROCESSING" then none else some ([], Except.ok a)
  | fuel + 1, i, a =>
    if a.state = "PROCESSING" then
      match env.getFileResult i with
      | Except.error e => some ([Effect.sleep 1, Effect.getFile a.name], Except.error e)
      | Except.ok a2 =>
        match pollLoop env fuel (i + 1) a2 with
        | none => none
        | some (tr, r) => some (Effect.sleep 1 :: Effect.getFile a.name :: tr, r)
    else some ([], Except.ok a)

/-- app.py lines 105-111: the video analysis prompt f-string. -/
def videoPrompt (userQuery : String) : String :=
  "\n                            Analyze the uploaded video for content and context.\n                            Respond to the following query using video insights and supplementary web research:\n                            " ++ userQuery ++ "\n\n                            Provide a detailed, user-friendly, and actionable response.\n                            "

/-- app.py lines 157-164: the image analysis prompt f-string. -/
def imagePrompt (userQuery : String) : String :=
  "\n                            Analyze the uploaded image in detail.\n                            Respond to the following query using image analysis and supplementary web research:\n                            " ++ userQuery ++ "\n\n                            Provide a comprehensive, detailed, and informative response covering visual elements, \n                            context, and any relevant insights.\n                            "

/-- The data analysis f-string's text before the dataset. -/
def dataPromptHeader : String :=
  "\n                                Here is the dataset:\n                                "

/-- The data analysis f-string's text between dataset and query. -/
def dataPromptMid : String :=
  "\n\n                                Respond to the following query using data analysis techniques:\n                                "

/-- The data analysis f-string's text after the query. -/
def dataPromptFooter : String :=
  "\n\n                                Provide relevant statistics, trends, or actionable insights based on the dataset.\n                            "

/-- app.py lines 214-222: the data analysis prompt f-string, embedding the
serialized dataset and the user query. -/
def dataPrompt (datasetText userQuery : String) : String :=
  dataPromptHeader ++ datasetText ++ dataPromptMid ++ userQuery ++ dataPromptFooter

/-- The body of the video `try` block (app.py lines 97-118): upload, poll,
compose, run, render.  `none` models the polling loop not terminating. -/
def videoBody (env : RemoteEnv) (fuel : Nat) (userQuery videoPath : String) :
    Option (List Effect × Except String String) :=
  match env.uploadResult videoPath with
  | Except.error e => some ([Effect.uploadFile videoPath], Except.error e)
  | Except.ok asset =>
    match pollLoop env fuel 0 asset with
    | none => none
    | some (tr, Except.error e) => some (Effect.uploadFile videoPath :: tr, Except.error e)
    | some (tr, Except.ok ready) =>
      let p := videoPrompt userQuery
      match env.runResult p [ready] [] with
      | Except.error e =>
        some (Effect.uploadFile videoPath :: tr ++ [Effect.agentRun p [ready] []], Except.error e)
      | Except.ok content =>
        some (Effect.uploadFile videoPath :: tr ++
          [Effect.agentRun p [ready] [], Effect.stMarkdown content], Except.ok content)

/-- Effects emitted before the analyze button in the video tab
(app.py lines 79-83): staging the temp file with fixed suffix `.mp4`
and previewing the video. -/
def videoStagePre : List Effect :=
  [Effect.tempWrite tempVideoPath ".mp4", Effect.stVideo tempVideoPath]

/-- app.py lines 78-124, the whole `if video_file:` block.  The uploaded
file's name is a parameter; the code stages with a constant `.mp4`
suffix regardless.  `clicked` is the analyze button; the empty-query
guard precedes the `try`/`except`/`finally`. -/
def videoTab (env : RemoteEnv) (fuel : Nat) (fileName userQuery : String)
    (clicked : Bool) : Option (List Effect) :=
  if !clicked then some videoStagePre
  else if userQuery = "" then
    some (videoStagePre ++
      [Effect.stWarning "Please enter a question or insight to analyze the video."])
  else
    match videoBody env fuel userQuery tempVideoPath with
    | none => none
    | some (tr, Except.ok _) => some (videoStagePre ++ tr ++ [Effect.unlink tempVideoPath])
    | some (tr, Except.error e) =>
      some (videoStagePre ++ tr ++
        [Effect.stError ("An error occurred during analysis: " ++ e),
         Effect.unlink tempVideoPath])

/-- The body of the image `try` block (app.py lines 147-171): stage the
temp file (inside the try, fixed `.png` suffix), upload, compose, run,
render.  No polling loop. -/
def imageBody (env : RemoteEnv) (userQuery imagePath : String) :
    List Effect × Except String String :=
  match env.uploadResult imagePath with
  | Except.error e =>
    ([Effect.tempWrite imagePath ".png", Effect.uploadFile imagePath], Except.error e)
  | Except.ok asset =>
    let p := imagePrompt userQuery
    match env.runResult p [] [asset] with
    | Except.error e =>
      ([Effect.tempWrite imagePath ".png", Effect.uploadFile imagePath,
        Effect.agentRun p [] [asset]], Except.error e)
    | Except.ok content =>
      ([Effect.tempWrite imagePath ".png", Effect.uploadFile imagePath,
        Effect.agentRun p [] [asset], Effect.stMarkdown content], Except.ok content)

/-- app.py lines 131-177, the whole `if image_file:` block.  The empty-query
guard precedes the `try`; the temp file is only created inside the `try`. -/
def imageTab (env : RemoteEnv) (fileName userQuery : String) (clicked : Bool) :
    List Effect :=
  if !clicked then [Effect.stImageShow]
  else if userQuery = "" then
    [Effect.stImageShow,
     Effect.stWarning "Please enter a question or insight to analyze the image."]
  else
    match imageBody env userQuery tempImagePath with
    | (tr, Except.ok _) => Effect.stImageShow :: tr ++ [Effect.unlink tempImagePath]
    | (tr, Except.error e) =>
      Effect.stImageShow :: tr ++
        [Effect.stError ("An error occurred during analysis: " ++ e),
         Effect.unlink tempImagePath]

/-- app.py lines 184-235, the `if data_file:` block.  `readResult` is the
outcome of reading and serializing the dataset (`pd.read_csv` /
`pd.read_excel` then `data.to_string(index=False)`); an `error e`
models the outer `except` catching a parse failure.  No staging, no
upload, no polling; `multimodal_Agent.run(analysis_prompt)` carries no
media references. -/
def dataTab (readResult : Except String String) (env : RemoteEnv)
    (userQuery : String) (clicked : Bool) : List Effect :=
  match readResult with
  | Except.error e =>
    [Effect.stError ("An error occurred while processing the file: " ++ e)]
  | Except.ok datasetText =>
    if !clicked then [Effect.stDataframe]
    else if userQuery = "" then
      [Effect.stDataframe,
       Effect.stWarning "Please enter a question or insight to analyze the data."]
    else
      let p := dataPrompt datasetText userQuery
      match env.runResult p [] [] with
      | Except.error e =>
        [Effect.stDataframe, Effect.agentRun p [] [],
         Effect.stError ("An error occurred during analysis: " ++ e)]
      | Except.ok content =>
        [Effect.stDataframe, Effect.agentRun p [] [], Effect.stMarkdown content]

/-- app.py lines 35-44 followed by the rest of the script.  `cfg` is the
outcome of `genai.configure(api_key=…)`; `rest` is everything after the
gate (agent setup and the tabs).  `st.stop()` halts the script, so on
both unsatisfied branches nothing of `rest` is emitted. -/
def script (apiKey : Option String) (cfg : String → Except String Unit)
    (rest : List Effect) : List Effect :=
  match apiKey with
  | none => [Effect.sidebarWarning "Please enter a valid API key to proceed.", Effect.stStop]
  | some k =>
    match cfg k with
    | Except.ok _ =>
      Effect.sidebarSuccess "API key validated successfully!" :: Effect.initAgent :: rest
    | Except.error e =>
      [Effect.sidebarError ("Invalid API key: " ++ e), Effect.stStop]

/-- The credential gate is satisfied: a key was supplied and
`genai.configure` accepted it. -/
def gateSatisfied (apiKey : Option String) (cfg : String → Except String Unit) : Prop :=
  ∃ k, apiKey = some k ∧ cfg k = Except.ok ()

/-- An effect of one of the components downstream of the credential gate:
agent construction, staging, remote upload or state query, or inference. -/
def isDownstream : Effect → Bool
  | Effect.initAgent => true
  | Effect.tempWrite _ _ => true
  | Effect.uploadFile _ => true
  | Effect.getFile _ => true
  | Effect.sleep _ => true
  | Effect.agentRun _ _ _ => true
  | _ => false

/-- An inference invocation. -/
def isAgentRun : Effect → Bool
  | Effect.agentRun _ _ _ => true
  | _ => false

/-- A user-visible warning. -/
def isStWarning : Effect → Bool
  | Effect.stWarning _ => true
  | _ => false

/-- A user-visible error message. -/
def isStError : Effect → Bool
  | Effect.stError _ => true
  | _ => false

/-- A temp-file staging effect. -/
def isTempWrite : Effect → Bool
  | Effect.tempWrite _ _ => true
  | _ => false

/-- An effect the polling loop can emit: the fixed 1-second sleep or a
state re-fetch. -/
def isPollEffect : Effect → Bool
  | Effect.sleep 1 => true
  | Effect.getFile _ => true
  | _ => false

/-- Staging effects all carry the given suffix. -/
def tempSuffixIs (sfx : String) : Effect → Bool
  | Effect.tempWrite _ s => s = sfx
  | _ => true

/-- The effect is an inference invocation referencing an asset in the
given state. -/
def runReferencesState (st : String) : Effect → Bool
  | Effect.agentRun _ vs is => (vs ++ is).any (fun a => a.state = st)
  | _ => false

/-- Staging, remote upload, polling sleep, or state-query effect. -/
def isMediaPipelineEffect : Effect → Bool
  | Effect.tempWrite _ _ => true
  | Effect.uploadFile _ => true
  | Effect.getFile _ => true
  | Effect.sleep _ => true
  | _ => false

/-- The inference call carries no media references. -/
def mediaRefsEmpty : Effect → Bool
  | Effect.agentRun _ vs is => vs.isEmpty && is.isEmpty
  | _ => true

/-- `s` contains `sub` as a substring. -/
def containsSubstr (s sub : String) : Prop :=
  ∃ s1 s2, s = s1 ++ sub ++ s2

/-- The option holds a terminated trace satisfying the Boolean predicate. -/
def traceSat (o : Option (List Effect)) (p : List Effect → Bool) : Bool :=
  match o with
  | none => false
  | some tr => p tr

/-- A terminated trace in which a temp file was staged but never unlinked
at the given path. -/
def leakedFile (p : String) (o : Option (List Effect)) : Bool :=
  traceSat o (fun tr => tr.any isTempWrite && !(tr.any (fun e => e = Effect.unlink p)))

/-- A terminated trace in which inference was invoked with a FAILED asset
and neither an error nor a warning was surfaced beforehand. -/
def failedReachesRun (o : Option (List Effect)) : Bool :=
  traceSat o (fun tr => tr.any (runReferencesState "FAILED") &&
    !(tr.any isStError) && !(tr.any isStWarning))

/-- The trace invokes inference referencing an asset still PROCESSING. -/
def processingReachesRun (tr : List Effect) : Bool :=
  tr.any (runReferencesState "PROCESSING")

/-! ### Concrete remote-service behaviours used as test inputs -/

/-- An asset still in server-side preprocessing. -/
def procAsset : RemoteAsset := ⟨"files/asset1", "PROCESSING"⟩

/-- An asset whose server-side preprocessing failed. -/
def failedAsset : RemoteAsset := ⟨"files/asset1", "FAILED"⟩

/-- An asset that finished server-side preprocessing. -/
def activeAsset : RemoteAsset := ⟨"files/asset1", "ACTIVE"⟩

/-- Uploads complete immediately and inference succeeds. -/
def envOk : RemoteEnv :=
  ⟨fun _ => Except.ok activeAsset, fun _ => Except.ok activeAsset,
   fun _ _ _ => Except.ok "analysis text"⟩

/-- The upload is accepted in PROCESSING state and the first re-fetch
reports the asset FAILED; inference itself would succeed. -/
def envToFailed : RemoteEnv :=
  ⟨fun _ => Except.ok procAsset, fun _ => Except.ok failedAsset,
   fun _ _ _ => Except.ok "analysis text"⟩

/-- The upload returns an asset still in PROCESSING state (and it stays
PROCESSING on every re-fetch); inference itself would succeed. -/
def envProcUpload : RemoteEnv :=
  ⟨fun _ => Except.ok procAsset, fun _ => Except.ok procAsset,
   fun _ _ _ => Except.ok "analysis text"⟩

/-- The asset never leaves PROCESSING: every re-fetch succeeds and still
reports PROCESSING. -/
def envStuck : RemoteEnv :=
  ⟨fun _ => Except.ok procAsset, fun _ => Except.ok procAsset,
   fun _ _ _ => Except.ok "analysis text"⟩

/-- The remote upload raises. -/
def envUploadFail : RemoteEnv :=
  ⟨fun _ => Except.error "boom", fun _ => Except.ok activeAsset,
   fun _ _ _ => Except.ok "analysis text"⟩

/-- A rejected credential: `genai.configure` raises on any key. -/
def cfgReject : String → Except String Unit :=
  fun _ => Except.error "API key not valid"

/-- The trace of a successful video analysis against `envOk`. -/
def videoOkTrace : List Effect :=
  videoStagePre ++
    [Effect.uploadFile tempVideoPath,
     Effect.agentRun (videoPrompt "what") [activeAsset] [],
     Effect.stMarkdown "analysis text",
     Effect.unlink tempVideoPath]

/-! ### Helper lemmas about the polling loop and the video body -/

theorem pollLoop_ok_state (env : RemoteEnv) :
    ∀ fuel i a tr a2, pollLoop env fuel i a = some (tr, Except.ok a2) →
      a2.state ≠ "PROCESSING" := by
  intro fuel
  induction fuel with
  | zero =>
    intro i a tr a2 h
    by_cases hs : a.state = "PROCESSING"
    · simp [pollLoop, hs] at h
    · simp [pollLoop, hs] at h
      rcases h with ⟨-, rfl⟩
      exact hs
  | succ fuel ih =>
    intro i a tr a2 h
    by_cases hs : a.state = "PROCESSING"
    · rcases hget : env.getFileResult i with e | a3
      · simp [pollLoop, hs, hget] at h
      · rcases hrec : pollLoop env fuel (i + 1) a3 with _ | ⟨tr2, r⟩
        · simp [pollLoop, hs, hget, hrec] at h
        · simp [pollLoop, hs, hget, hrec] at h
          rcases h with ⟨-, rfl⟩
          exact ih (i + 1) a3 tr2 a2 hrec
    · simp [pollLoop, hs] at h
      rcases h with ⟨-, rfl⟩
      exact hs

theorem pollLoop_trace_shape (env : RemoteEnv) :
    ∀ fuel i a tr r, pollLoop env fuel i a = some (tr, r) →
      ∀ e ∈ tr, isPollEffect e = true := by
  intro fuel
  induction fuel with
  | zero =>
    intro i a tr r h
    by_cases hs : a.state = "PROCESSING"
    · simp [pollLoop, hs] at h
    · simp [pollLoop, hs] at h
      rcases h with ⟨rfl, -⟩
      intro e he
      simp at he
  | succ fuel ih =>
    intro i a tr r h
    by_cases hs : a.state = "PROCESSING"
    · rcases hget : env.getFileResult i with e0 | a3
      · simp [pollLoop, hs, hget] at h
        rcases h with ⟨rfl, -⟩
        intro e he
        simp at he
        rcases he with rfl | rfl <;> rfl
      · rcases hrec : pollLoop env fuel (i + 1) a3 with _ | ⟨tr2, r2⟩
        · simp [pollLoop, hs, hget, hrec] at h
        · simp [pollLoop, hs, hget, hrec] at h
          rcases h with ⟨rfl, -⟩
          intro e he
          simp at he
          rcases he with rfl | rfl | he
          · rfl
          · rfl
          · exact ih (i + 1) a3 tr2 r2 hrec e he
    · simp [pollLoop, hs] at h
      rcases h with ⟨rfl, -⟩
      intro e he
      simp at he

theorem pollEffect_not_tempWrite (e : Effect) (h : isPollEffect e = true) :
    isTempWrite e = false := by
  cases e <;> simp_all [isPollEffect, isTempWrite]

theorem pollEffect_not_run (st : String) (e : Effect) (h : isPollEffect e = true) :
    runReferencesState st e = false := by
  cases e <;> simp_all [isPollEffect, runReferencesState]

/-- Every effect of the video try-block body is the upload, a polling
effect, the inference call on the (non-PROCESSING) polled asset, or the
rendering of the result. -/
theorem videoBody_effects (env : RemoteEnv) (fuel : Nat) (q p : String)
    (tr : List Effect) (r : Except String String)
    (h : videoBody env fuel q p = some (tr, r)) :
    ∀ e ∈ tr, e = Effect.uploadFile p ∨ isPollEffect e = true ∨
      (∃ ready, ready.state ≠ "PROCESSING" ∧
        e = Effect.agentRun (videoPrompt q) [ready] []) ∨
      (∃ c, e = Effect.stMarkdown c) := by
  rcases hup : env.uploadResult p with e0 | asset
  · simp [videoBody, hup] at h
    rcases h with ⟨rfl, -⟩
    intro e he
    simp at he
    subst he
    exact Or.inl rfl
  · rcases hpl : pollLoop env fuel 0 asset with _ | ⟨tr0, r0⟩
    · simp [videoBody, hup, hpl] at h
    · rcases r0 with e0 | ready
      · simp [videoBody, hup, hpl] at h
        rcases h with ⟨rfl, -⟩
        intro e he
        simp at he
        rcases he with rfl | he
        · exact Or.inl rfl
        · exact Or.inr (Or.inl (pollLoop_trace_shape env fuel 0 asset tr0 _ hpl e he))
      · have hready : ready.state ≠ "PROCESSING" :=
          pollLoop_ok_state env fuel 0 asset tr0 ready hpl
        rcases hrun : env.runResult (videoPrompt q) [ready] [] with e0 | content
        · simp [videoBody, hup, hpl, hrun] at h
          rcases h with ⟨rfl, -⟩
          intro e he
          simp at he
          rcases he with rfl | he | rfl
          · exact Or.inl rfl
          · exact Or.inr (Or.inl (pollLoop_trace_shape env fuel 0 asset tr0 _ hpl e he))
          · exact Or.inr (Or.inr (Or.inl ⟨ready, hready, rfl⟩))
        · simp [videoBody, hup, hpl, hrun] at h
          rcases h with ⟨rfl, -⟩
          intro e he
          simp at he
          rcases he with rfl | he | rfl | rfl
          · exact Or.inl rfl
          · exact Or.inr (Or.inl (pollLoop_trace_shape env fuel 0 asset tr0 _ hpl e he))
          · exact Or.inr (Or.inr (Or.inl ⟨ready, hready, rfl⟩))
          · exact Or.inr (Or.inr (Or.inr ⟨content, rfl⟩))

theorem videoBody_no_processing_run (env : RemoteEnv) (fuel : Nat) (q p : String)
    (tr0 : List Effect) (r : Except String String)
    (hb : videoBody env fuel q p = some (tr0, r)) :
    ∀ e ∈ tr0, runReferencesState "PROCESSING" e = false := by
  intro e he
  rcases videoBody_effects env fuel q p tr0 r hb e he with
    rfl | hp | ⟨ready, hready, rfl⟩ | ⟨c0, rfl⟩
  · rfl
  · exact pollEffect_not_run _ e hp
  · simp [runReferencesState, hready]
  · rfl

theorem videoBody_no_tempWrite (env : RemoteEnv) (fuel : Nat) (q p : String)
    (tr0 : List Effect) (r : Except String String)
    (hb : videoBody env fuel q p = some (tr0, r)) :
    ∀ e ∈ tr0, isTempWrite e = false := by
  intro e he
  rcases videoBody_effects env fuel q p tr0 r hb e he with
    rfl | hp | ⟨ready, -, rfl⟩ | ⟨c0, rfl⟩
  · rfl
  · exact pollEffect_not_tempWrite e hp
  · rfl
  · rfl

theorem not_tempWrite_suffix (s : String) (e : Effect) (h : isTempWrite e = false) :
    tempSuffixIs s e = true := by
  cases e <;> simp_all [isTempWrite, tempSuffixIs]

/-- Every effect of a terminated video-tab trace is a staging/preview
effect, a user-visible warning or error, the cleanup unlink, or an
effect of the try-block body. -/
theorem videoTab_trace_effects (env : RemoteEnv) (fuel : Nat) (fn q : String)
    (c : Bool) (tr : List Effect) (h : videoTab env fuel fn q c = some tr) :
    ∀ e ∈ tr, e ∈ videoStagePre ∨ (∃ m, e = Effect.stWarning m) ∨
      (∃ m, e = Effect.stError m) ∨ e = Effect.unlink tempVideoPath ∨
      ∃ tr0 r, videoBody env fuel q tempVideoPath = some (tr0, r) ∧ e ∈ tr0 := by
  cases c with
  | false =>
    simp [videoTab] at h
    subst h
    intro e he
    exact Or.inl he
  | true =>
    by_cases hq : q = ""
    · simp [videoTab, hq] at h
      subst h
      intro e he
      simp at he
      rcases he with he | rfl
      · exact Or.inl (by simpa using he)
      · exact Or.inr (Or.inl ⟨_, rfl⟩)
    · rcases hb : videoBody env fuel q tempVideoPath with _ | ⟨tr0, r⟩
      · simp [videoTab, hq, hb] at h
      · rcases r with e0 | c0
        · simp [videoTab, hq, hb] at h
          subst h
          intro e he
          simp at he
          rcases he with he | he | rfl | rfl
          · exact Or.inl (by simpa using he)
          · exact Or.inr (Or.inr (Or.inr (Or.inr ⟨tr0, Except.error e0, rfl, he⟩)))
          · exact Or.inr (Or.inr (Or.inl ⟨_, rfl⟩))
          · exact Or.inr (Or.inr (Or.inr (Or.inl rfl)))
        · simp [videoTab, hq, hb] at h
          subst h
          intro e he
          simp at he
          rcases he with he | he | rfl
          · exact Or.inl (by simpa using he)
          · exact Or.inr (Or.inr (Or.inr (Or.inr ⟨tr0, Except.ok c0, rfl, he⟩)))
          · exact Or.inr (Or.inr (Or.inr (Or.inl rfl)))

theorem videoTab_unlink (env : RemoteEnv) (fuel : Nat) (fn q : String)
    (tr : List Effect) (hq : q ≠ "") (h : videoTab env fuel fn q true = some tr) :
    Effect.unlink tempVideoPath ∈ tr := by
  rcases hb : videoBody env fuel q tempVideoPath with _ | ⟨tr0, r⟩
  · simp [videoTab, hq, hb] at h
  · rcases r with e0 | c0
    · simp [videoTab, hq, hb] at h
      subst h
      simp
    · simp [videoTab, hq, hb] at h
      subst h
      simp

/-! ### Claim theorems -/

/-- Claim C1, counterexample: with the analyze button pressed and an
empty user query, the video handler exits after staging the temp file
and showing a warning, without ever deleting the file — deletion does
not occur on this exit path of the request. -/
theorem video_empty_query_file_persists :
    leakedFile tempVideoPath (videoTab envOk 3 "clip.mp4" "" true) = true := by
  rfl

/-- Claim C1, amended: once the analyze action runs with a non-empty
query, the backing temp file is deleted on every terminating exit path
(normal or error) of the video and image handlers, and the image
handler stages no file at all on the empty-query path.  (As literally
stated the claim fails: the video handler stages the file before the
empty-query guard, and that exit path does not delete it.) -/
theorem staged_file_deleted_on_analysis (env : RemoteEnv) (fuel : Nat)
    (vfn ifn q : String) (hq : q ≠ "") :
    (∀ tr, videoTab env fuel vfn q true = some tr →
      Effect.unlink tempVideoPath ∈ tr) ∧
    Effect.unlink tempImagePath ∈ imageTab env ifn q true ∧
    (imageTab env ifn "" true).all (fun e => !(isTempWrite e)) = true := by
  refine ⟨fun tr h => videoTab_unlink env fuel vfn q tr hq h, ?_, ?_⟩
  · rcases hb : imageBody env q tempImagePath with ⟨tr0, r⟩
    rcases r with e0 | c0 <;> simp [imageTab, hq, hb]
  · rfl

theorem staged_file_deleted_on_analysis_witness :
    "what" ≠ "" ∧
    ((∀ tr, videoTab envUploadFail 1 "clip.mp4" "what" true = some tr →
        Effect.unlink tempVideoPath ∈ tr) ∧
      Effect.unlink tempImagePath ∈ imageTab envUploadFail "photo.png" "what" true ∧
      (imageTab envUploadFail "photo.png" "" true).all
        (fun e => !(isTempWrite e)) = true) :=
  ⟨by decide,
   staged_file_deleted_on_analysis envUploadFail 1 "clip.mp4" "photo.png" "what"
     (by decide)⟩

/-- Claim C2, counterexample: against a service whose asset transitions
from PROCESSING to FAILED, the polling loop exits and the FAILED asset
is handed to the inference call; no AssetFailedError, error, or warning
is surfaced. -/
theorem failed_asset_reaches_inference :
    failedReachesRun (videoTab envToFailed 3 "clip.mp4" "what happens" true) = true := by
  rfl

/-- Claim C2, amended: the polling loop guarantees only that the asset
it returns is no longer PROCESSING; it performs no FAILED check, so a
FAILED asset is handed onward to inference instead of failing with
AssetFailedError. -/
theorem poll_returns_non_processing (env : RemoteEnv) (fuel i : Nat)
    (a : RemoteAsset) (tr : List Effect) (a2 : RemoteAsset)
    (h : pollLoop env fuel i a = some (tr, Except.ok a2)) :
    a2.state ≠ "PROCESSING" :=
  pollLoop_ok_state env fuel i a tr a2 h

theorem poll_returns_non_processing_witness :
    pollLoop envToFailed 3 0 procAsset =
      some ([Effect.sleep 1, Effect.getFile "files/asset1"], Except.ok failedAsset) ∧
    failedAsset.state ≠ "PROCESSING" :=
  ⟨by rfl,
   poll_returns_non_processing envToFailed 3 0 procAsset
     [Effect.sleep 1, Effect.getFile "files/asset1"] failedAsset (by rfl)⟩

/-- Claim C3, counterexample: the image handler invokes inference with
the asset exactly as returned by the upload, with no state check; when
the upload returns an asset still PROCESSING, inference is invoked with
a PROCESSING asset. -/
theorem image_inference_with_processing_asset :
    processingReachesRun (imageTab envProcUpload "photo.png" "what is shown" true) = true := by
  rfl

/-- Claim C3, amended: for the video modality the inference call is
never reached with a PROCESSING asset — the polling loop runs first and
only exits on a non-PROCESSING state; the image modality carries no
such guarantee. -/
theorem video_inference_never_processing (env : RemoteEnv) (fuel : Nat)
    (fn q : String) (c : Bool) (tr : List Effect)
    (h : videoTab env fuel fn q c = some tr) :
    tr.all (fun e => !(runReferencesState "PROCESSING" e)) = true := by
  rw [List.all_eq_true]
  intro e he
  rw [Bool.not_eq_true']
  rcases videoTab_trace_effects env fuel fn q c tr h e he with
    hp | ⟨m, rfl⟩ | ⟨m, rfl⟩ | rfl | ⟨tr0, r, hb, he0⟩
  · simp [videoStagePre] at hp
    rcases hp with rfl | rfl <;> rfl
  · rfl
  · rfl
  · rfl
  · exact videoBody_no_processing_run env fuel q tempVideoPath tr0 r hb e he0

theorem video_inference_never_processing_witness :
    videoTab envOk 3 "clip.mp4" "what" true = some videoOkTrace ∧
    videoOkTrace.all (fun e => !(runReferencesState "PROCESSING" e)) = true :=
  ⟨by rfl,
   video_inference_never_processing envOk 3 "clip.mp4" "what" true videoOkTrace
     (by rfl)⟩

/-- Claim C4: the Readiness Poller re-fetches the asset state while it
is PROCESSING with no attempt bound and no timeout: if every re-fetch
still reports PROCESSING the loop does not terminate for any amount of
fuel; and every terminating poll trace consists solely of fixed 1-unit
sleeps and state re-fetches. -/
theorem poller_unbounded_fixed_interval (env : RemoteEnv) (a : RemoteAsset)
    (ha : a.state = "PROCESSING")
    (hs : ∀ i, ∃ a2, env.getFileResult i = Except.ok a2 ∧ a2.state = "PROCESSING") :
    (∀ fuel i, pollLoop env fuel i a = none) ∧
    (∀ fuel i b tr r, pollLoop env fuel i b = some (tr, r) →
      ∀ e ∈ tr, isPollEffect e = true) := by
  constructor
  · have key : ∀ fuel i (b : RemoteAsset), b.state = "PROCESSING" →
        pollLoop env fuel i b = none := by
      intro fuel
      induction fuel with
      | zero =>
        intro i b hb
        simp [pollLoop, hb]
      | succ fuel ih =>
        intro i b hb
        rcases hs i with ⟨a2, hg, hp⟩
        simp [pollLoop, hb, hg, ih (i + 1) a2 hp]
    exact fun fuel i => key fuel i a ha
  · exact fun fuel i b tr r h => pollLoop_trace_shape env fuel i b tr r h

theorem poller_unbounded_fixed_interval_witness :
    procAsset.state = "PROCESSING" ∧ pollLoop envStuck 7 0 procAsset = none :=
  ⟨rfl,
   (poller_unbounded_fixed_interval envStuck procAsset rfl
     (fun _ => ⟨procAsset, rfl, rfl⟩)).1 7 0⟩

/-- Claim C5: for each of the three modalities, triggering the analyze
action with an empty user query produces a user-visible warning and
never invokes the inference agent. -/
theorem empty_query_blocks_inference (env : RemoteEnv) (fuel : Nat)
    (vfn ifn dsText : String) :
    traceSat (videoTab env fuel vfn "" true)
      (fun tr => tr.all (fun e => !(isAgentRun e)) && tr.any isStWarning) = true ∧
    ((imageTab env ifn "" true).all (fun e => !(isAgentRun e)) &&
      (imageTab env ifn "" true).any isStWarning) = true ∧
    ((dataTab (Except.ok dsText) env "" true).all (fun e => !(isAgentRun e)) &&
      (dataTab (Except.ok dsText) env "" true).any isStWarning) = true :=
  ⟨rfl, rfl, rfl⟩

/-- Claim C6: while the credential gate is unsatisfied (no key supplied,
or the key rejected by configure), the script halts at the gate's
blocking stop and its trace contains no downstream effect — no agent
construction, staging, upload, polling, or inference. -/
theorem credential_gate_blocks (apiKey : Option String)
    (cfg : String → Except String Unit) (rest : List Effect)
    (h : ¬ gateSatisfied apiKey cfg) :
    Effect.stStop ∈ script apiKey cfg rest ∧
      (script apiKey cfg rest).all (fun e => !(isDownstream e)) = true := by
  cases apiKey with
  | none => exact ⟨by simp [script], by rfl⟩
  | some k =>
    rcases hc : cfg k with e0 | u
    · have hscript : script (some k) cfg rest =
          [Effect.sidebarError ("Invalid API key: " ++ e0), Effect.stStop] := by
        simp [script, hc]
      rw [hscript]
      exact ⟨by simp, by rfl⟩
    · exfalso
      apply h
      refine ⟨k, rfl, ?_⟩
      cases u
      exact hc

theorem credential_gate_blocks_witness :
    ¬ gateSatisfied (some "badkey") cfgReject ∧
    (Effect.stStop ∈ script (some "badkey") cfgReject [Effect.initAgent] ∧
      (script (some "badkey") cfgReject [Effect.initAgent]).all
        (fun e => !(isDownstream e)) = true) :=
  ⟨fun hcon => by rcases hcon with ⟨k, -, hk⟩; simp [cfgReject] at hk,
   credential_gate_blocks (some "badkey") cfgReject [Effect.initAgent]
     (fun hcon => by rcases hcon with ⟨k, -, hk⟩; simp [cfgReject] at hk)⟩

/-- Claim C7: every request-scoped failure (video upload/poll/inference,
image upload/inference, dataset parsing, or data-tab inference) is
caught at the request boundary: the handler still returns a normal
trace whose user-visible error message embeds the human-readable cause,
followed for the media tabs by the cleanup unlink. -/
theorem request_failures_surfaced (env : RemoteEnv) (fuel : Nat)
    (vfn ifn q dsText e : String) (hq : q ≠ "") :
    (∀ tr0, videoBody env fuel q tempVideoPath = some (tr0, Except.error e) →
      videoTab env fuel vfn q true =
        some (videoStagePre ++ tr0 ++
          [Effect.stError ("An error occurred during analysis: " ++ e),
           Effect.unlink tempVideoPath])) ∧
    (∀ tr0, imageBody env q tempImagePath = (tr0, Except.error e) →
      imageTab env ifn q true =
        Effect.stImageShow :: tr0 ++
          [Effect.stError ("An error occurred during analysis: " ++ e),
           Effect.unlink tempImagePath]) ∧
    (dataTab (Except.error e) env q true =
      [Effect.stError ("An error occurred while processing the file: " ++ e)]) ∧
    (env.runResult (dataPrompt dsText q) [] [] = Except.error e →
      dataTab (Except.ok dsText) env q true =
        [Effect.stDataframe, Effect.agentRun (dataPrompt dsText q) [] [],
         Effect.stError ("An error occurred during analysis: " ++ e)]) := by
  refine ⟨?_, ?_, rfl, ?_⟩
  · intro tr0 hb
    simp [videoTab, hq, hb]
  · intro tr0 hb
    simp [imageTab, hq, hb]
  · intro hr
    simp [dataTab, hq, hr]

theorem request_failures_surfaced_witness :
    "what" ≠ "" ∧
    videoBody envUploadFail 1 "what" tempVideoPath =
      some ([Effect.uploadFile tempVideoPath], Except.error "boom") ∧
    videoTab envUploadFail 1 "clip.mp4" "what" true =
      some (videoStagePre ++ [Effect.uploadFile tempVideoPath] ++
        [Effect.stError ("An error occurred during analysis: " ++ "boom"),
         Effect.unlink tempVideoPath]) :=
  ⟨by decide, by rfl,
   (request_failures_surfaced envUploadFail 1 "clip.mp4" "b.png" "what" "ds" "boom"
     (by decide)).1 [Effect.uploadFile tempVideoPath] (by rfl)⟩

/-- Claim C8: the tabular analysis prompt contains both the full literal
dataset serialization and the literal user query as substrings. -/
theorem tabular_prompt_contains_both (dsText q : String) :
    containsSubstr (dataPrompt dsText q) dsText ∧
    containsSubstr (dataPrompt dsText q) q := by
  constructor
  · refine ⟨dataPromptHeader, dataPromptMid ++ q ++ dataPromptFooter, ?_⟩
    simp [dataPrompt, String.append_assoc]
  · refine ⟨dataPromptHeader ++ dsText ++ dataPromptMid, dataPromptFooter, ?_⟩
    simp [dataPrompt, String.append_assoc]

/-- Claim C9: the data tab performs no staging, remote upload, polling
sleep, or state query, and its inference call carries no media
references — only the composed prompt with the dataset embedded as
text. -/
theorem tabular_no_media_pipeline (rr : Except String String) (env : RemoteEnv)
    (q : String) (c : Bool) :
    (dataTab rr env q c).all
      (fun e => !(isMediaPipelineEffect e) && mediaRefsEmpty e) = true := by
  rcases rr with e0 | ds
  · rfl
  · cases c with
    | false => rfl
    | true =>
      by_cases hq : q = ""
      · subst hq
        rfl
      · rcases hr : env.runResult (dataPrompt ds q) [] [] with e0 | c0 <;>
          simp [dataTab, hq, hr, isMediaPipelineEffect, mediaRefsEmpty]

/-- Claim C10: for any accepted upload, the staged temp file's suffix is
the fixed constant of the modality — `.mp4` for video (also for `.mov`
and `.avi` uploads) and `.png` for image (also for `.jpg` and `.jpeg`
uploads) — never the uploaded file's own suffix. -/
theorem staged_suffix_constant (env : RemoteEnv) (fuel : Nat) (vfn ifn q : String)
    (c : Bool) (hv : videoUploaderAccepts vfn = true)
    (hi : imageUploaderAccepts ifn = true) :
    (∀ tr, videoTab env fuel vfn q c = some tr →
      tr.all (tempSuffixIs ".mp4") = true) ∧
    (imageTab env ifn q c).all (tempSuffixIs ".png") = true := by
  constructor
  · intro tr h
    rw [List.all_eq_true]
    intro e he
    rcases videoTab_trace_effects env fuel vfn q c tr h e he with
      hp | ⟨m, rfl⟩ | ⟨m, rfl⟩ | rfl | ⟨tr0, r, hb, he0⟩
    · simp [videoStagePre] at hp
      rcases hp with rfl | rfl <;> rfl
    · rfl
    · rfl
    · rfl
    · exact not_tempWrite_suffix _ e
        (videoBody_no_tempWrite env fuel q tempVideoPath tr0 r hb e he0)
  · cases c with
    | false => rfl
    | true =>
      by_cases hq : q = ""
      · subst hq
        rfl
      · rcases hup : env.uploadResult tempImagePath with e0 | asset
        · simp [imageTab, hq, imageBody, hup, tempSuffixIs]
        · rcases hr : env.runResult (imagePrompt q) [] [asset] with e0 | c0 <;>
            simp [imageTab, hq, imageBody, hup, hr, tempSuffixIs]

theorem staged_suffix_constant_witness :
    videoUploaderAccepts "clip.mov" = true ∧
    imageUploaderAccepts "photo.jpg" = true ∧
    ((∀ tr, videoTab envOk 1 "clip.mov" "what" true = some tr →
        tr.all (tempSuffixIs ".mp4") = true) ∧
      (imageTab envOk "photo.jpg" "what" true).all (tempSuffixIs ".png") = true) :=
  ⟨by rfl, by rfl,
   staged_suffix_constant envOk 1 "clip.mov" "photo.jpg" "what" true
     (by rfl) (by rfl)⟩

end AIInsightHub
